import Mathlib

/-!
Verification of the vonage-rs client library (verify lifecycle, codec,
signing, credentials) against its natural-language specification.

The Rust sources are shallowly embedded: pure functions become Lean
functions, the HTTP transport becomes an explicit outcome value that is
passed in, machine words are Nat values reduced modulo two to the word
width, and fallible code returns Except. Byte strings are lists of Nat
byte values obtained from UTF-8 encoding.
-/

set_option maxRecDepth 100000

namespace Vonage

-- ==========================================================================
-- Bit-level helpers for the hash primitives used by src/sig.rs
-- (the md5, sha1, sha2 and hmac crates that Signature::sign calls into).
-- ==========================================================================

def w32 (n : Nat) : Nat := n % 4294967296

def w64 (n : Nat) : Nat := n % 18446744073709551616

def rotl32 (x s : Nat) : Nat := w32 ((x <<< s) % 4294967296 + x >>> (32 - s))

def rotr32 (x s : Nat) : Nat := w32 (x >>> s + (x <<< (32 - s)) % 4294967296)

def rotr64 (x s : Nat) : Nat := w64 (x >>> s + (x <<< (64 - s)) % 18446744073709551616)

def not32 (x : Nat) : Nat := 4294967295 ^^^ x

def not64 (x : Nat) : Nat := 18446744073709551615 ^^^ x

def natLE : Nat → Nat → List Nat
  | 0, _ => []
  | k + 1, n => n % 256 :: natLE k (n / 256)

def natBE (k n : Nat) : List Nat := (natLE k n).reverse

def toWordsLE : List Nat → List Nat
  | b0 :: b1 :: b2 :: b3 :: rest =>
    (b0 + (b1 <<< 8) + (b2 <<< 16) + (b3 <<< 24)) :: toWordsLE rest
  | _ => []

def toWordsBE : List Nat → List Nat
  | b0 :: b1 :: b2 :: b3 :: rest =>
    ((b0 <<< 24) + (b1 <<< 16) + (b2 <<< 8) + b3) :: toWordsBE rest
  | _ => []

def toWords64BE : List Nat → List Nat
  | b0 :: b1 :: b2 :: b3 :: b4 :: b5 :: b6 :: b7 :: rest =>
    ((b0 <<< 56) + (b1 <<< 48) + (b2 <<< 40) + (b3 <<< 32) +
     (b4 <<< 24) + (b5 <<< 16) + (b6 <<< 8) + b7) :: toWords64BE rest
  | _ => []

def toBlocks16 : List Nat → List (List Nat)
  | w0 :: w1 :: w2 :: w3 :: w4 :: w5 :: w6 :: w7 ::
    w8 :: w9 :: w10 :: w11 :: w12 :: w13 :: w14 :: w15 :: rest =>
    [w0, w1, w2, w3, w4, w5, w6, w7, w8, w9, w10, w11, w12, w13, w14, w15] :: toBlocks16 rest
  | _ => []

def padMD (lenField : Nat → List Nat) (blockLen : Nat) (msg : List Nat) : List Nat :=
  let len := msg.length
  let zeros := (2 * blockLen - 1 - blockLen / 8 - len % blockLen) % blockLen
  msg ++ 128 :: List.replicate zeros 0 ++ lenField (8 * len)

-- MD5 (RFC 1321) ------------------------------------------------------------

def md5K : List Nat :=
  [3614090360, 3905402710, 606105819, 3250441966,
   4118548399, 1200080426, 2821735955, 4249261313,
   1770035416, 2336552879, 4294925233, 2304563134,
   1804603682, 4254626195, 2792965006, 1236535329,
   4129170786, 3225465664, 643717713, 3921069994,
   3593408605, 38016083, 3634488961, 3889429448,
   568446438, 3275163606, 4107603335, 1163531501,
   2850285829, 4243563512, 1735328473, 2368359562,
   4294588738, 2272392833, 1839030562, 4259657740,
   2763975236, 1272893353, 4139469664, 3200236656,
   681279174, 3936430074, 3572445317, 76029189,
   3654602809, 3873151461, 530742520, 3299628645,
   4096336452, 1126891415, 2878612391, 4237533241,
   1700485571, 2399980690, 4293915773, 2240044497,
   1873313359, 4264355552, 2734768916, 1309151649,
   4149444226, 3174756917, 718787259, 3951481745]

def md5S : List Nat :=
  [7, 12, 17, 22, 7, 12, 17, 22, 7, 12, 17, 22, 7, 12, 17, 22,
   5, 9, 14, 20, 5, 9, 14, 20, 5, 9, 14, 20, 5, 9, 14, 20,
   4, 11, 16, 23, 4, 11, 16, 23, 4, 11, 16, 23, 4, 11, 16, 23,
   6, 10, 15, 21, 6, 10, 15, 21, 6, 10, 15, 21, 6, 10, 15, 21]

def md5F (i b c d : Nat) : Nat :=
  if i < 16 then b &&& c ||| not32 b &&& d
  else if i < 32 then d &&& b ||| not32 d &&& c
  else if i < 48 then b ^^^ c ^^^ d
  else c ^^^ (b ||| not32 d)

def md5G (i : Nat) : Nat :=
  if i < 16 then i
  else if i < 32 then (5 * i + 1) % 16
  else if i < 48 then (3 * i + 5) % 16
  else 7 * i % 16

def md5Step (m : List Nat) (st : Nat × Nat × Nat × Nat) (i : Nat) : Nat × Nat × Nat × Nat :=
  let (a, b, c, d) := st
  let tmp := w32 (a + md5F i b c d + md5K.getD i 0 + m.getD (md5G i) 0)
  (d, w32 (b + rotl32 tmp (md5S.getD i 0)), b, c)

def md5Block (st : Nat × Nat × Nat × Nat) (m : List Nat) : Nat × Nat × Nat × Nat :=
  let (a, b, c, d) := (List.range 64).foldl (md5Step m) st
  (w32 (st.1 + a), w32 (st.2.1 + b), w32 (st.2.2.1 + c), w32 (st.2.2.2 + d))

def md5Bytes (msg : List Nat) : List Nat :=
  let blocks := toBlocks16 (toWordsLE (padMD (natLE 8) 64 msg))
  let (a, b, c, d) := blocks.foldl md5Block (1732584193, 4023233417, 2562383102, 271733878)
  natLE 4 a ++ natLE 4 b ++ natLE 4 c ++ natLE 4 d

-- SHA-1 (FIPS 180-4) --------------------------------------------------------

def sha1Sched (block : List Nat) : List Nat :=
  let rev := (List.range 64).foldl
    (fun acc _ =>
      rotl32 (acc.getD 2 0 ^^^ acc.getD 7 0 ^^^ acc.getD 13 0 ^^^ acc.getD 15 0) 1 :: acc)
    block.reverse
  rev.reverse

def sha1F (i b c d : Nat) : Nat :=
  if i < 20 then b &&& c ||| not32 b &&& d
  else if i < 40 then b ^^^ c ^^^ d
  else if i < 60 then b &&& c ||| b &&& d ||| c &&& d
  else b ^^^ c ^^^ d

def sha1KC (i : Nat) : Nat :=
  if i < 20 then 1518500249
  else if i < 40 then 1859775393
  else if i < 60 then 2400959708
  else 3395469782

def sha1Block (st : Nat × Nat × Nat × Nat × Nat) (m : List Nat) : Nat × Nat × Nat × Nat × Nat :=
  let ws := sha1Sched m
  let (a, b, c, d, e) := (List.range 80).foldl
    (fun st i =>
      let (a, b, c, d, e) := st
      (w32 (rotl32 a 5 + sha1F i b c d + e + sha1KC i + ws.getD i 0), a, rotl32 b 30, c, d))
    st
  (w32 (st.1 + a), w32 (st.2.1 + b), w32 (st.2.2.1 + c), w32 (st.2.2.2.1 + d),
   w32 (st.2.2.2.2 + e))

def sha1Bytes (msg : List Nat) : List Nat :=
  let blocks := toBlocks16 (toWordsBE (padMD (natBE 8) 64 msg))
  let (a, b, c, d, e) := blocks.foldl sha1Block
    (1732584193, 4023233417, 2562383102, 271733878, 3285377520)
  natBE 4 a ++ natBE 4 b ++ natBE 4 c ++ natBE 4 d ++ natBE 4 e

-- SHA-256 (FIPS 180-4) ------------------------------------------------------

def sha256K : List Nat :=
  [1116352408, 1899447441, 3049323471, 3921009573, 961987163, 1508970993, 2453635748, 2870763221,
   3624381080, 310598401, 607225278, 1426881987, 1925078388, 2162078206, 2614888103, 3248222580,
   3835390401, 4022224774, 264347078, 604807628, 770255983, 1249150122, 1555081692, 1996064986,
   2554220882, 2821834349, 2952996808, 3210313671, 3336571891, 3584528711, 113926993, 338241895,
   666307205, 773529912, 1294757372, 1396182291, 1695183700, 1986661051, 2177026350, 2456956037,
   2730485921, 2820302411, 3259730800, 3345764771, 3516065817, 3600352804, 4094571909, 275423344,
   430227734, 506948616, 659060556, 883997877, 958139571, 1322822218, 1537002063, 1747873779,
   1955562222, 2024104815, 2227730452, 2361852424, 2428436474, 2756734187, 3204031479, 3329325298]

def sha256Sched (block : List Nat) : List Nat :=
  let rev := (List.range 48).foldl
    (fun acc _ =>
      let s0 := rotr32 (acc.getD 14 0) 7 ^^^ rotr32 (acc.getD 14 0) 18 ^^^ acc.getD 14 0 >>> 3
      let s1 := rotr32 (acc.getD 1 0) 17 ^^^ rotr32 (acc.getD 1 0) 19 ^^^ acc.getD 1 0 >>> 10
      w32 (s1 + acc.getD 6 0 + s0 + acc.getD 15 0) :: acc)
    block.reverse
  rev.reverse

def sha256Block (st : Nat × Nat × Nat × Nat × Nat × Nat × Nat × Nat) (m : List Nat) :
    Nat × Nat × Nat × Nat × Nat × Nat × Nat × Nat :=
  let ws := sha256Sched m
  let (a, b, c, d, e, f, g, h) := (List.range 64).foldl
    (fun st i =>
      let (a, b, c, d, e, f, g, h) := st
      let s1 := rotr32 e 6 ^^^ rotr32 e 11 ^^^ rotr32 e 25
      let ch := e &&& f ^^^ not32 e &&& g
      let t1 := w32 (h + s1 + ch + sha256K.getD i 0 + ws.getD i 0)
      let s0 := rotr32 a 2 ^^^ rotr32 a 13 ^^^ rotr32 a 22
      let mj := a &&& b ^^^ a &&& c ^^^ b &&& c
      (w32 (t1 + w32 (s0 + mj)), a, b, c, w32 (d + t1), e, f, g))
    st
  (w32 (st.1 + a), w32 (st.2.1 + b), w32 (st.2.2.1 + c), w32 (st.2.2.2.1 + d),
   w32 (st.2.2.2.2.1 + e), w32 (st.2.2.2.2.2.1 + f), w32 (st.2.2.2.2.2.2.1 + g),
   w32 (st.2.2.2.2.2.2.2 + h))

def sha256Bytes (msg : List Nat) : List Nat :=
  let blocks := toBlocks16 (toWordsBE (padMD (natBE 8) 64 msg))
  let (a, b, c, d, e, f, g, h) := blocks.foldl sha256Block
    (1779033703, 3144134277, 1013904242, 2773480762, 1359893119, 2600822924, 528734635, 1541459225)
  natBE 4 a ++ natBE 4 b ++ natBE 4 c ++ natBE 4 d ++
  natBE 4 e ++ natBE 4 f ++ natBE 4 g ++ natBE 4 h

-- SHA-512 (FIPS 180-4) ------------------------------------------------------

def sha512K : List Nat :=
  [4794697086780616226, 8158064640168781261, 13096744586834688815, 16840607885511220156,
   4131703408338449720, 6480981068601479193, 10538285296894168987, 12329834152419229976,
   15566598209576043074, 1334009975649890238, 2608012711638119052, 6128411473006802146,
   8268148722764581231, 9286055187155687089, 11230858885718282805, 13951009754708518548,
   16472876342353939154, 17275323862435702243, 1135362057144423861, 2597628984639134821,
   3308224258029322869, 5365058923640841347, 6679025012923562964, 8573033837759648693,
   10970295158949994411, 12119686244451234320, 12683024718118986047, 13788192230050041572,
   14330467153632333762, 15395433587784984357, 489312712824947311, 1452737877330783856,
   2861767655752347644, 3322285676063803686, 5560940570517711597, 5996557281743188959,
   7280758554555802590, 8532644243296465576, 9350256976987008742, 10552545826968843579,
   11727347734174303076, 12113106623233404929, 14000437183269869457, 14369950271660146224,
   15101387698204529176, 15463397548674623760, 17586052441742319658, 1182934255886127544,
   1847814050463011016, 2177327727835720531, 2830643537854262169, 3796741975233480872,
   4115178125766777443, 5681478168544905931, 6601373596472566643, 7507060721942968483,
   8399075790359081724, 8693463985226723168, 9568029438360202098, 10144078919501101548,
   10430055236837252648, 11840083180663258601, 13761210420658862357, 14299343276471374635,
   14566680578165727644, 15097957966210449927, 16922976911328602910, 17689382322260857208,
   500013540394364858, 748580250866718886, 1242879168328830382, 1977374033974150939,
   2944078676154940804, 3659926193048069267, 4368137639120453308, 4836135668995329356,
   5532061633213252278, 6448918945643986474, 6902733635092675308, 7801388544844847127]

def sha512Sched (block : List Nat) : List Nat :=
  let rev := (List.range 64).foldl
    (fun acc _ =>
      let s0 := rotr64 (acc.getD 14 0) 1 ^^^ rotr64 (acc.getD 14 0) 8 ^^^ acc.getD 14 0 >>> 7
      let s1 := rotr64 (acc.getD 1 0) 19 ^^^ rotr64 (acc.getD 1 0) 61 ^^^ acc.getD 1 0 >>> 6
      w64 (s1 + acc.getD 6 0 + s0 + acc.getD 15 0) :: acc)
    block.reverse
  rev.reverse

def sha512Block (st : Nat × Nat × Nat × Nat × Nat × Nat × Nat × Nat) (m : List Nat) :
    Nat × Nat × Nat × Nat × Nat × Nat × Nat × Nat :=
  let ws := sha512Sched m
  let (a, b, c, d, e, f, g, h) := (List.range 80).foldl
    (fun st i =>
      let (a, b, c, d, e, f, g, h) := st
      let s1 := rotr64 e 14 ^^^ rotr64 e 18 ^^^ rotr64 e 41
      let ch := e &&& f ^^^ not64 e &&& g
      let t1 := w64 (h + s1 + ch + sha512K.getD i 0 + ws.getD i 0)
      let s0 := rotr64 a 28 ^^^ rotr64 a 34 ^^^ rotr64 a 39
      let mj := a &&& b ^^^ a &&& c ^^^ b &&& c
      (w64 (t1 + w64 (s0 + mj)), a, b, c, w64 (d + t1), e, f, g))
    st
  (w64 (st.1 + a), w64 (st.2.1 + b), w64 (st.2.2.1 + c), w64 (st.2.2.2.1 + d),
   w64 (st.2.2.2.2.1 + e), w64 (st.2.2.2.2.2.1 + f), w64 (st.2.2.2.2.2.2.1 + g),
   w64 (st.2.2.2.2.2.2.2 + h))

def sha512Bytes (msg : List Nat) : List Nat :=
  let blocks := toBlocks16 (toWords64BE (padMD (natBE 16) 128 msg))
  let (a, b, c, d, e, f, g, h) := blocks.foldl sha512Block
    (7640891576956012808, 13503953896175478587, 4354685564936845355, 11912009170470909681,
     5840696475078001361, 11170449401992604703, 2270897969802886507, 6620516959819538809)
  natBE 8 a ++ natBE 8 b ++ natBE 8 c ++ natBE 8 d ++
  natBE 8 e ++ natBE 8 f ++ natBE 8 g ++ natBE 8 h

-- HMAC (RFC 2104), as implemented by the hmac crate (Hmac::new_varkey) ------

def hmacBytes (hash : List Nat → List Nat) (blockSize : Nat) (key msg : List Nat) : List Nat :=
  let k0 := if blockSize < key.length then hash key else key
  let k := k0 ++ List.replicate (blockSize - k0.length) 0
  hash (k.map (fun b => b ^^^ 92) ++ hash (k.map (fun b => b ^^^ 54) ++ msg))

-- Byte-string plumbing ------------------------------------------------------

def charUtf8 (c : Char) : List Nat :=
  let n := c.toNat
  if n < 128 then [n]
  else if n < 2048 then [192 + n / 64, 128 + n % 64]
  else if n < 65536 then [224 + n / 4096, 128 + n / 64 % 64, 128 + n % 64]
  else [240 + n / 262144, 128 + n / 4096 % 64, 128 + n / 64 % 64, 128 + n % 64]

def utf8Bytes (s : String) : List Nat := s.data.foldr (fun c acc => charUtf8 c ++ acc) []

def hexChar (n : Nat) : Char := "0123456789abcdef".data.getD n 'x'

def bytesToHex (bs : List Nat) : String :=
  String.mk (bs.foldr (fun b acc => hexChar (b / 16) :: hexChar (b % 16) :: acc) [])

-- ==========================================================================
-- src/sig.rs : SMS request signing
-- ==========================================================================

/-- A list of supported SMS signature methods (src/sig.rs, SignatureMethod). -/
inductive SignatureMethod
  | Md5Hash
  | Md5Hmac
  | Sha1Hmac
  | Sha256Hmac
  | Sha512Hmac
deriving DecidableEq

/-- The default signature method is the plain MD5 hash (impl Default). -/
def SignatureMethod.default : SignatureMethod := .Md5Hash

/-- A cryptographic signature used for signing SMS message requests
(src/sig.rs, struct Signature). -/
structure Signature where
  secret : String
  method : SignatureMethod

-- A serialized map-like parameter struct is modelled as an association list
-- of key and value strings, in field declaration order, which is what
-- serde_urlencoded::to_string produces before the string is decoded back
-- into a BTreeMap in to_payload_str.

/-- Replacement of the separator characters inside a value: the source
replaces every ampersand or equals character of the value with an
underscore, character by character. -/
def escapeValue (v : String) : String :=
  String.mk (v.data.map (fun c => if c = '&' || c = '=' then '_' else c))

/-- Lexicographic order on character lists by code point, the order the
BTreeMap of string keys sorts by (byte-lexicographic order on UTF-8 agrees
with code-point order). Written as an executable Bool comparison. -/
def charsLtB : List Char → List Char → Bool
  | _, [] => false
  | [], _ :: _ => true
  | a :: as, b :: bs =>
    if a.toNat < b.toNat then true
    else if b.toNat < a.toNat then false
    else charsLtB as bs

/-- Lexicographic order on strings. -/
def strLtB (a b : String) : Bool := charsLtB a.data b.data

/-- Insertion into a BTreeMap of strings represented as a key-sorted
association list; on an equal key the stored value is replaced, which is
the BTreeMap semantics used when serde_urlencoded::from_str collects the
pairs. -/
def btreeInsert : List (String × String) → String × String → List (String × String)
  | [], kv => [kv]
  | x :: xs, kv =>
    if strLtB kv.1 x.1 then kv :: x :: xs
    else if kv.1 = x.1 then kv :: xs
    else x :: btreeInsert xs kv

/-- The BTreeMap built from the decoded parameter pairs (src/sig.rs,
to_payload_str, line sorted: BTreeMap = serde_urlencoded::from_str). -/
def toSortedMap (params : List (String × String)) : List (String × String) :=
  params.foldl btreeInsert []

/-- Canonical payload string (src/sig.rs, to_payload_str): encode the
parameters, decode them into a sorted map, remove the sig entry, then fold
the remaining pairs into ampersand-key-equals-value fragments with the
separator characters of each value replaced by underscores. -/
def to_payload_str (params : List (String × String)) : String :=
  let sorted := (toSortedMap params).filter (fun kv => kv.1 ≠ "sig")
  sorted.foldl (fun acc kv => acc ++ "&" ++ kv.1 ++ "=" ++ escapeValue kv.2) ""

/-- Signature::sign (src/sig.rs lines 60 to 91): hash the canonical payload
with the configured method and render the digest as lowercase hex. -/
def sign (g : Signature) (query_params : List (String × String)) : String :=
  let payload := to_payload_str query_params
  match g.method with
  | .Md5Hash => bytesToHex (md5Bytes (utf8Bytes payload ++ utf8Bytes g.secret))
  | .Md5Hmac => bytesToHex (hmacBytes md5Bytes 64 (utf8Bytes g.secret) (utf8Bytes payload))
  | .Sha1Hmac => bytesToHex (hmacBytes sha1Bytes 64 (utf8Bytes g.secret) (utf8Bytes payload))
  | .Sha256Hmac => bytesToHex (hmacBytes sha256Bytes 64 (utf8Bytes g.secret) (utf8Bytes payload))
  | .Sha512Hmac => bytesToHex (hmacBytes sha512Bytes 128 (utf8Bytes g.secret) (utf8Bytes payload))

-- ==========================================================================
-- src/verify.rs : provider error codes, and src/error.rs : error taxonomy
-- ==========================================================================

/-- An opaque provider-issued string identifying a verify request
(src/verify.rs, struct RequestId). -/
structure RequestId where
  val : String
deriving DecidableEq

/-- The closed enumeration of provider error codes (src/verify.rs,
enum ErrorCode), each tagged on the wire with a numeric string. -/
inductive ErrorCode
  | Throttled
  | MissingParam
  | InvalidParam
  | InvalidCredentials
  | InternalError
  | RouteError
  | BlacklistedPhone
  | BarredApiKey
  | ExceededPartnerQuota
  | Concurrent
  | UnsupportedNetwork
  | CodeMismatch
  | TooManyAttempts
  | CancelOrTriggerNextFailed
  | PinCodeNotSupported
deriving DecidableEq

/-- The numeric wire code of each ErrorCode variant, from the serde rename
attributes on src/verify.rs lines 106 to 138. -/
def ErrorCode.code : ErrorCode → Nat
  | .Throttled => 1
  | .MissingParam => 2
  | .InvalidParam => 3
  | .InvalidCredentials => 4
  | .InternalError => 5
  | .RouteError => 6
  | .BlacklistedPhone => 7
  | .BarredApiKey => 8
  | .ExceededPartnerQuota => 9
  | .Concurrent => 10
  | .UnsupportedNetwork => 15
  | .CodeMismatch => 16
  | .TooManyAttempts => 17
  | .CancelOrTriggerNextFailed => 19
  | .PinCodeNotSupported => 20

/-- A provider-level verify failure (src/verify.rs, struct VerifyError). -/
structure VerifyError where
  status : ErrorCode
  error_text : String
deriving DecidableEq

/-- General categories of API errors (src/error.rs, enum ErrorKind). The
hyper StatusCode payload is modelled by its numeric value. -/
inductive ErrorKind
  | auth
  | http
  | status (code : Nat)
  | verify (code_mismatch : Bool)
deriving DecidableEq

/-- ErrorKind::is_code_mismatch (src/error.rs lines 21 to 27). -/
def ErrorKind.is_code_mismatch : ErrorKind → Bool
  | .verify code_mismatch => code_mismatch
  | _ => false

/-- The anyhow error payload stored in Error::source, as far as the claims
inspect it: either a structured VerifyError or some other message. -/
inductive ErrorCause
  | verify_error (e : VerifyError)
  | other (msg : String)
deriving DecidableEq

/-- The error type for API operations (src/error.rs, struct Error). -/
structure Error where
  kind : ErrorKind
  source : Option ErrorCause
deriving DecidableEq

/-- Error::new_auth (src/error.rs lines 40 to 42). -/
def Error.new_auth (msg : String) : Error := ⟨.auth, some (.other msg)⟩

/-- Error::new_verify for a non-VerifyError cause such as a serde failure
(src/error.rs lines 44 to 51). -/
def Error.new_verify (c : ErrorCause) : Error := ⟨.verify false, some c⟩

/-- From StatusCode for Error (src/error.rs lines 82 to 89): kind Status
with no source. -/
def Error.ofStatus (code : Nat) : Error := ⟨.status code, none⟩

/-- An opaque transport-level failure (hyper::Error). -/
structure HyperError where
  msg : String
deriving DecidableEq

/-- From hyper::Error for Error (src/error.rs lines 76 to 80): kind Http. -/
def Error.ofHyper (e : HyperError) : Error := ⟨.http, some (.other e.msg)⟩

/-- From VerifyError for Error (src/verify.rs lines 97 to 104): the kind is
the tagged code-mismatch sub-kind exactly for ErrorCode::CodeMismatch. -/
def VerifyError.toError (e : VerifyError) : Error :=
  match e.status with
  | .CodeMismatch => ⟨.verify true, some (.verify_error e)⟩
  | _ => ⟨.verify false, some (.verify_error e)⟩

-- ==========================================================================
-- src/auth.rs : credential provider
-- ==========================================================================

/-- An API key (src/auth.rs, struct ApiKey, a newtype over String). -/
structure ApiKey where
  val : String
deriving DecidableEq

/-- An API secret (src/auth.rs, struct ApiSecret, a newtype over String). -/
structure ApiSecret where
  val : String
deriving DecidableEq

/-- Authentication material (src/auth.rs, struct Auth): an optional API key
and secret pair and an optional application id and private key pair. -/
structure Auth where
  api_key : Option (ApiKey × ApiSecret)
  jwt : Option (String × String)

/-- A JSON value as far as the claim-set logic inspects it; claim values are
carried opaquely. -/
inductive Json
  | jnull
  | jbool (b : Bool)
  | jint (n : Int)
  | jstr (s : String)
deriving DecidableEq

-- The serde_json object holding the claims is modelled as an association
-- list of key and value pairs; map.insert replaces the value stored at an
-- existing key and map.entry(k).or_insert only adds a binding when the key
-- is absent.

/-- Model of serde_json Map::insert on an association list. -/
def mapInsert (k : String) (v : Json) : List (String × Json) → List (String × Json)
  | [] => [(k, v)]
  | (k0, v0) :: rest => if k0 = k then (k, v) :: rest else (k0, v0) :: mapInsert k v rest

/-- Model of serde_json Map::entry(k).or_insert_with(v): only adds a binding
when the key is absent. -/
def entryOrInsert (k : String) (v : Json) (m : List (String × Json)) : List (String × Json) :=
  match m.lookup k with
  | some _ => m
  | none => m ++ [(k, v)]

/-- Auth::api_key_pair (src/auth.rs lines 39 to 43): the stored pair, or an
authentication error when no API-key material was supplied. -/
def Auth.api_key_pair (a : Auth) : Except Error (ApiKey × ApiSecret) :=
  match a.api_key with
  | some p => .ok p
  | none => .error (Error.new_auth "product requires an API key to authenticate")

/-- Auth::generate_jwt (src/auth.rs lines 52 to 76), restricted to the
claim-set transformation it performs before handing the claims to the JWT
encoder. The ambient clock and the uuid generator are passed in explicitly
as now_ts (current epoch seconds) and fresh_jti (the freshly generated
unique identifier); the cryptographic token encoding itself is outside the
embedding, so the function returns the claim set that gets signed. -/
def generate_jwt (a : Auth) (claims : List (String × Json)) (now_ts : Int)
    (fresh_jti : String) : Except Error (List (String × Json)) :=
  match a.jwt with
  | some (application_id, _private_key) =>
    let c1 := mapInsert "application_id" (.jstr application_id) claims
    let c2 := entryOrInsert "iat" (.jint now_ts) c1
    let c3 := entryOrInsert "jti" (.jstr fresh_jti) c2
    .ok c3
  | none =>
    .error (Error.new_auth "product requires an application ID and private key to generate JWTs")

-- ==========================================================================
-- Debug renderings (the Rust Debug implementations produce strings; the
-- relevant impls are hand-written precisely to keep secrets out of them).
-- ==========================================================================

/-- Escaping used by the Debug rendering of a string (an approximation of
char::escape_debug covering the common escapes; the noninterference claims
do not depend on the exact escape table). -/
def escapeDebugChar (c : Char) : List Char :=
  if c = '"' then ['\\', '"']
  else if c = '\\' then ['\\', '\\']
  else if c = '\n' then ['\\', 'n']
  else if c = '\t' then ['\\', 't']
  else if c = '\r' then ['\\', 'r']
  else [c]

/-- Debug rendering of a string value: quoted and escaped. -/
def rustStrDebug (s : String) : String :=
  "\"" ++ String.mk (s.data.foldr (fun c acc => escapeDebugChar c ++ acc) []) ++ "\""

/-- Derived Debug for ApiKey: the tuple struct shows its field. -/
def debugApiKey (k : ApiKey) : String := "ApiKey(" ++ rustStrDebug k.val ++ ")"

/-- Hand-written Debug for ApiSecret (src/auth.rs lines 18 to 24): the
field printed is the fixed placeholder literal, never the stored secret. -/
def debugApiSecret (_s : ApiSecret) : String := "ApiSecret(" ++ rustStrDebug "<secret>" ++ ")"

/-- Hand-written Debug for Auth (src/auth.rs lines 79 to 86): the api_key
field renders through the ApiSecret Debug above and the jwt private key is
replaced by a placeholder before rendering. -/
def debugAuth (a : Auth) : String :=
  let apiKeyField :=
    match a.api_key with
    | none => "None"
    | some (k, s) => "Some((" ++ debugApiKey k ++ ", " ++ debugApiSecret s ++ "))"
  let jwtField :=
    match a.jwt with
    | none => "None"
    | some (app_id, _private_key) =>
      "Some((" ++ rustStrDebug app_id ++ ", " ++ rustStrDebug "<private-key>" ++ "))"
  "Auth \x7b api_key: " ++ apiKeyField ++ ", jwt: " ++ jwtField ++ " \x7d"

/-- Derived Debug for SignatureMethod. -/
def debugSignatureMethod : SignatureMethod → String
  | .Md5Hash => "Md5Hash"
  | .Md5Hmac => "Md5Hmac"
  | .Sha1Hmac => "Sha1Hmac"
  | .Sha256Hmac => "Sha256Hmac"
  | .Sha512Hmac => "Sha512Hmac"

/-- Hand-written Debug for Signature (src/sig.rs lines 93 to 100): the
secret field prints the fixed literal word secret, not the stored value. -/
def debugSignature (g : Signature) : String :=
  "Signature \x7b secret: " ++ rustStrDebug "secret" ++ ", method: " ++
    debugSignatureMethod g.method ++ " \x7d"

-- ==========================================================================
-- src/verify.rs : request encoding and response decoding (the codec)
-- ==========================================================================

def VONAGE_URL_BASE : String := "https://api.nexmo.com"

/-- HTTP method of a wire request. -/
inductive Method
  | POST
  | GET
deriving DecidableEq

/-- A wire request as built by the encoders: method, full URI, content type
header and body. The serde_urlencoded encoding of the typed body is taken
as an opaque already-encoded string. -/
structure WireRequest where
  method : Method
  uri : String
  content_type : String
  body : String
deriving DecidableEq

/-- encode_request (src/verify.rs lines 25 to 40): the URI is the base,
then the literal path segment verify, then the given path, then the json
suffix; the encoded parameters are always placed in the request body with
the form-urlencoded content type, for GET as well as for POST. -/
def encode_request (method : Method) (path : String) (encoded : String) : WireRequest :=
  { method := method
    uri := VONAGE_URL_BASE ++ "/verify" ++ path ++ "/json"
    content_type := "application/x-www-form-urlencoded"
    body := encoded }

/-- encode_request_post (src/lib.rs lines 217 to 233): POST with the path
appended to the base directly and the parameters in the body. -/
def encode_request_post (path : String) (encoded : String) : WireRequest :=
  { method := .POST
    uri := VONAGE_URL_BASE ++ path ++ "/json"
    content_type := "application/x-www-form-urlencoded"
    body := encoded }

/-- encode_request_get (src/lib.rs lines 235 to 251): GET with the encoded
parameters appended to the URI as a query string and an empty body. -/
def encode_request_get (path : String) (encoded : String) : WireRequest :=
  { method := .GET
    uri := VONAGE_URL_BASE ++ path ++ "/json?" ++ encoded
    content_type := "application/json"
    body := "" }

/-- An HTTP response: numeric status code and a body. The body type is the
result of parsing the raw bytes, so that decode_response can be stated over
every parse outcome. -/
structure HttpResponse (β : Type) where
  status : Nat
  body : β
deriving DecidableEq

/-- The parse outcome of a JSON response body against the untagged envelope
of decode_response (src/verify.rs lines 46 to 68): a success envelope whose
status field is the string zero carrying the typed payload, an error
envelope carrying the provider status code and error_text, or a body that
fits neither alternative (a serde_json failure). -/
inductive ParsedBody (T : Type)
  | success (inner : T)
  | errorBody (request_id : Option RequestId) (status : ErrorCode) (error_text : String)
  | malformed (msg : String)
deriving DecidableEq

/-- decode_response (src/verify.rs lines 42 to 82): a non-200 status fails
with the status error before the body is read; a success envelope yields
the payload; an error envelope yields the VerifyError converted through its
From impl; an unparseable body yields a plain verify error. -/
def decode_response {T : Type} (resp : HttpResponse (ParsedBody T)) : Except Error T :=
  if resp.status = 200 then
    match resp.body with
    | .success inner => .ok inner
    | .errorBody _ status error_text => .error (VerifyError.toError ⟨status, error_text⟩)
    | .malformed msg => .error (Error.new_verify (.other msg))
  else .error (Error.ofStatus resp.status)

/-- The outcome of handing a wire request to the injected transport: either
a transport-level failure or an HTTP response. -/
inductive Transport (β : Type)
  | failed (e : HyperError)
  | replied (resp : HttpResponse β)
deriving DecidableEq

-- ==========================================================================
-- src/verify/pending.rs : the pending-verification state machine
-- ==========================================================================

/-- A handle to a pending verify request (src/verify/pending.rs, struct
PendingVerify). The generic transport client field carries no data
relevant to any claim and is omitted from the state. -/
structure PendingVerify where
  api_key : ApiKey
  api_secret : ApiSecret
  request_id : RequestId
  attempts_remaining : Nat
deriving DecidableEq

/-- Details returned when a verify request succeeded (src/verify/pending.rs,
struct Verified). -/
structure Verified where
  request_id : RequestId
  event_id : String
  price : String
  currency : String
  estimated_price_messages_sent : Option String
deriving DecidableEq

/-- The result of a PIN code check (src/verify/pending.rs, enum Code). -/
inductive Code
  | Match (v : Verified)
  | Mismatch (h : PendingVerify)
deriving DecidableEq

/-- The match on the decoded response inside PendingVerify::check
(src/verify/pending.rs lines 88 to 95): success becomes Code::Match, a
code-mismatch error with remaining budget decrements the counter and
becomes Code::Mismatch, and every other error is returned as is. -/
def check (h : PendingVerify) (decoded : Except Error Verified) : Except Error Code :=
  match decoded with
  | .ok verified => .ok (.Match verified)
  | .error e =>
    if e.kind.is_code_mismatch = true ∧ 0 < h.attempts_remaining then
      .ok (.Mismatch { h with attempts_remaining := h.attempts_remaining - 1 })
    else .error e

/-- PendingVerify::check (src/verify/pending.rs lines 68 to 96) as a
function of the transport outcome for the issued check request: a transport
failure short-circuits through the question-mark operator before the
decoded response is matched. -/
def checkWire (h : PendingVerify) (tr : Transport (ParsedBody Verified)) : Except Error Code :=
  match tr with
  | .failed e => .error (Error.ofHyper e)
  | .replied resp => check h (decode_response resp)

/-- The two control commands (src/verify/pending.rs, enum ControlCommand). -/
inductive ControlCommand
  | Cancel
  | TriggerNextEvent
deriving DecidableEq

/-- PendingVerify::control_command (src/verify/pending.rs lines 40 to 61),
which backs cancel and trigger_next_event: it decodes the response of the
control request and never touches the handle state, so the unchanged handle
is returned alongside the result. -/
def control_command (h : PendingVerify) (_cmd : ControlCommand)
    (tr : Transport (ParsedBody Unit)) : PendingVerify × Except Error Unit :=
  match tr with
  | .failed e => (h, .error (Error.ofHyper e))
  | .replied resp => (h, decode_response resp)

/-- PartialEq for PendingVerify (src/verify/pending.rs lines 124 to 128):
equality is by request id only. -/
def PendingVerify.beq (a b : PendingVerify) : Bool := a.request_id.val == b.request_id.val

/-- Hash for PendingVerify (src/verify/pending.rs lines 130 to 134): the
data fed to the hasher is exactly the request id string. -/
def PendingVerify.hashData (a : PendingVerify) : String := a.request_id.val

-- ==========================================================================
-- src/verify/request.rs : the verify request builder and send
-- ==========================================================================

/-- The maximum number of check attempts seeded into a fresh handle
(src/verify/request.rs line 21, MAX_CHECK_ATTEMPTS). -/
def MAX_CHECK_ATTEMPTS : Nat := 3

/-- The two verification variants of the builder: Normal and Psd2
(src/verify/request/normal.rs and psd2.rs). -/
inductive Variant
  | Normal
  | Psd2
deriving DecidableEq

/-- The PATH constant of each Verification impl (normal.rs line 17 and
psd2.rs line 17). -/
def Variant.PATH : Variant → String
  | .Normal => "/verify"
  | .Psd2 => "/verify/psd2"

/-- The state of a Verify builder as far as send consumes it: credentials,
the chosen variant and the serde_urlencoded encoding of its RequestBody
(kept opaque, the body fields are plain marshaled data). -/
structure Verify where
  api_key : ApiKey
  api_secret : ApiSecret
  variant : Variant
  encoded_body : String

/-- The response body decoded by send (the anonymous ResponseBody struct in
src/verify/request.rs lines 175 to 178). -/
structure SendResponseBody where
  request_id : RequestId
deriving DecidableEq

/-- The wire request built by send (src/verify/request.rs line 180):
encode_request with Method::POST and the PATH of the active variant. -/
def sendRequest (v : Verify) : WireRequest :=
  encode_request .POST v.variant.PATH v.encoded_body

/-- Verify::send (src/verify/request.rs lines 174 to 191) as a function of
the transport outcome: on a decoded success it constructs a PendingVerify
seeded with MAX_CHECK_ATTEMPTS attempts; every failure propagates. -/
def send (v : Verify) (tr : Transport (ParsedBody SendResponseBody)) :
    Except Error PendingVerify :=
  match tr with
  | .failed e => .error (Error.ofHyper e)
  | .replied resp =>
    match decode_response resp with
    | .error e => .error e
    | .ok rb =>
      .ok { api_key := v.api_key
            api_secret := v.api_secret
            request_id := rb.request_id
            attempts_remaining := MAX_CHECK_ATTEMPTS }

/-- The handles reachable from a successful send through any sequence of
check, cancel and trigger_next_event calls. A new handle arises only from
send or from the Code::Mismatch result of check; the control commands
return the handle unchanged. -/
inductive ReachableFromSend : PendingVerify → Prop
  | send_ok (v : Verify) (tr : Transport (ParsedBody SendResponseBody)) (h : PendingVerify) :
      send v tr = .ok h → ReachableFromSend h
  | check_mismatch (h : PendingVerify) (tr : Transport (ParsedBody Verified))
      (h2 : PendingVerify) : ReachableFromSend h → checkWire h tr = .ok (.Mismatch h2) →
      ReachableFromSend h2
  | control (h : PendingVerify) (cmd : ControlCommand) (tr : Transport (ParsedBody Unit)) :
      ReachableFromSend h → ReachableFromSend (control_command h cmd tr).1

-- ==========================================================================
-- src/verify/search.rs : batch lookup of verification records
-- ==========================================================================

/-- A timestamp in the provider date format; the claims never inspect the
parsed fields, they are carried as data. -/
structure NaiveDateTime where
  year : Nat
  month : Nat
  day : Nat
  hour : Nat
  minute : Nat
  second : Nat
deriving DecidableEq

/-- The current status of a verify request (src/verify/search.rs,
enum VerifyStatus). -/
inductive VerifyStatus
  | InProgress
  | Success
  | Failed
  | Expired
  | Cancelled
deriving DecidableEq

/-- A PIN code check outcome (src/verify/search.rs, enum CheckStatus). -/
inductive CheckStatus
  | Valid
  | Invalid
deriving DecidableEq

/-- An event type (src/verify/search.rs, enum EventType). -/
inductive EventType
  | Sms
  | Tts
deriving DecidableEq

/-- Details of an attempted PIN code check (src/verify/search.rs,
struct Check). The IP address is carried as a string. -/
structure CheckRecord where
  date_received : NaiveDateTime
  code : String
  status : CheckStatus
  ip_address : Option String
deriving DecidableEq

/-- A search result record (src/verify/search.rs, struct VerifyInfo). The
phone number is carried as its canonical string. -/
structure VerifyInfo where
  request_id : RequestId
  account_id : String
  status : VerifyStatus
  number : String
  price : String
  currency : String
  sender_id : String
  date_submitted : NaiveDateTime
  date_finalized : NaiveDateTime
  first_event_date : NaiveDateTime
  last_event_date : NaiveDateTime
  checks : List CheckRecord
  events : List (EventType × String)
  estimated_price_messages_sent : Option String
deriving DecidableEq

/-- One element of the response list parsed by search (the anonymous
untagged Response enum in src/verify/search.rs lines 34 to 40): either a
full record or an error object whose status is the does-not-exist code
101, the only variant of the local ErrorCode enum. -/
inductive SearchRecord
  | success (info : VerifyInfo)
  | errorDoesNotExist
deriving DecidableEq

/-- The parse outcome of the search response body, a JSON list of records
or a serde_json failure. -/
inductive SearchBody
  | records (rs : List SearchRecord)
  | malformed (msg : String)
deriving DecidableEq

/-- The RequestBody serialized by search (src/verify/search.rs lines 21 to
26): the credentials of the first handle and the request ids of every
handle. -/
structure SearchRequestBody where
  api_key : ApiKey
  api_secret : ApiSecret
  request_ids : List RequestId
deriving DecidableEq

/-- The per-record mapping applied by search (src/verify/search.rs lines 70
to 76): a parsed record becomes Some and a per-record provider error
becomes None. -/
def recordSlot : SearchRecord → Option VerifyInfo
  | .success info => some info
  | .errorDoesNotExist => none

/-- search (src/verify/search.rs lines 16 to 80) as a function of the input
handles and the transport: an empty input returns an empty list without
building a request; otherwise the batch request is built from the first
handle credentials and all request ids in input order, a non-200 status or
transport or parse failure aborts the batch, and each parsed record maps to
its slot. The first component is the request handed to the transport, or
none when no network call is made. -/
def search (handles : List PendingVerify) (transport : SearchRequestBody → Transport SearchBody) :
    Option SearchRequestBody × Except Error (List (Option VerifyInfo)) :=
  match handles with
  | [] => (none, .ok [])
  | h0 :: rest =>
    let body : SearchRequestBody :=
      ⟨h0.api_key, h0.api_secret, (h0 :: rest).map (fun h => h.request_id)⟩
    match transport body with
    | .failed e => (some body, .error (Error.ofHyper e))
    | .replied resp =>
      if resp.status = 200 then
        match resp.body with
        | .malformed m => (some body, .error (Error.new_verify (.other m)))
        | .records rs => (some body, .ok (rs.map recordSlot))
      else (some body, .error (Error.ofStatus resp.status))

-- ==========================================================================
-- Helper lemmas
-- ==========================================================================

theorem VerifyError.toError_eq (c : ErrorCode) (t : String) :
    VerifyError.toError ⟨c, t⟩ =
      ⟨.verify (decide (c = .CodeMismatch)), some (.verify_error ⟨c, t⟩)⟩ := by
  cases c <;> rfl

theorem ErrorCode.code_eq_16_iff (c : ErrorCode) : c.code = 16 ↔ c = .CodeMismatch := by
  cases c <;> simp [ErrorCode.code]

-- ==========================================================================
-- Claim theorems
-- ==========================================================================

/-- C3: decode_response returns the HTTP-status error for every non-200
status without reading the body, returns the typed payload for a success
envelope with status field zero, and returns a Verify error carrying the
provider code and error_text for an error envelope, whose kind is the
tagged code-mismatch sub-kind exactly when the provider code is 16. -/
theorem C3_decode_response_contract {T : Type} :
    (∀ (s : Nat) (b b2 : ParsedBody T), s ≠ 200 →
      decode_response ⟨s, b⟩ = .error (Error.ofStatus s) ∧
      decode_response ⟨s, b⟩ = decode_response ⟨s, b2⟩) ∧
    (∀ inner : T,
      decode_response (⟨200, .success inner⟩ : HttpResponse (ParsedBody T)) = .ok inner) ∧
    (∀ (rid : Option RequestId) (c : ErrorCode) (t : String),
      ∃ e : Error,
        decode_response (⟨200, .errorBody rid c t⟩ : HttpResponse (ParsedBody T)) = .error e ∧
        e.source = some (.verify_error ⟨c, t⟩) ∧
        (e.kind.is_code_mismatch = true ↔ c.code = 16)) := by
  refine ⟨?_, ?_, ?_⟩
  · intro s b b2 hs
    exact ⟨by simp [decode_response, hs], by simp [decode_response, hs]⟩
  · intro inner
    simp [decode_response]
  · intro rid c t
    refine ⟨VerifyError.toError ⟨c, t⟩, by simp [decode_response], ?_, ?_⟩
    · rw [VerifyError.toError_eq]
    · rw [VerifyError.toError_eq]
      simp [ErrorKind.is_code_mismatch, ErrorCode.code_eq_16_iff]

/-- C3 witness: the contract evaluated at a 404 response. -/
theorem C3_decode_response_contract_witness :
    decode_response (⟨404, ParsedBody.malformed "x"⟩ : HttpResponse (ParsedBody Verified)) =
      .error (Error.ofStatus 404) :=
  ((C3_decode_response_contract (T := Verified)).1 404 (ParsedBody.malformed "x")
    (ParsedBody.malformed "x") (by decide)).1

/-- C1: check is determined by the decoded provider response and the
attempt budget. A decoded success yields Code::Match with the Verified
payload regardless of remaining budget; a decoded code-mismatch error with
positive budget yields Code::Mismatch with the counter decremented by one
and surfaces no error; a code-mismatch error with zero budget, any other
provider error, an unparseable body, a non-200 status and a transport
failure all return that error. Consumption of the handle is the Rust move
semantics of the self parameter and is outside the functional embedding;
the value-level behaviour is exactly this case split. -/
theorem C1_check_transitions (h : PendingVerify) (tr : Transport (ParsedBody Verified)) :
    (∀ v : Verified, tr = .replied ⟨200, .success v⟩ →
      checkWire h tr = .ok (.Match v)) ∧
    (∀ (rid : Option RequestId) (t : String),
      tr = .replied ⟨200, .errorBody rid .CodeMismatch t⟩ → 0 < h.attempts_remaining →
      checkWire h tr = .ok (.Mismatch { h with attempts_remaining := h.attempts_remaining - 1 })) ∧
    (∀ (rid : Option RequestId) (t : String),
      tr = .replied ⟨200, .errorBody rid .CodeMismatch t⟩ → h.attempts_remaining = 0 →
      checkWire h tr = .error (VerifyError.toError ⟨.CodeMismatch, t⟩)) ∧
    (∀ (rid : Option RequestId) (c : ErrorCode) (t : String),
      tr = .replied ⟨200, .errorBody rid c t⟩ → c ≠ .CodeMismatch →
      checkWire h tr = .error (VerifyError.toError ⟨c, t⟩)) ∧
    (∀ resp : HttpResponse (ParsedBody Verified), tr = .replied resp → resp.status ≠ 200 →
      checkWire h tr = .error (Error.ofStatus resp.status)) ∧
    (∀ m : String, tr = .replied ⟨200, .malformed m⟩ →
      checkWire h tr = .error (Error.new_verify (.other m))) ∧
    (∀ e : HyperError, tr = .failed e → checkWire h tr = .error (Error.ofHyper e)) := by
  refine ⟨?_, ?_, ?_, ?_, ?_, ?_, ?_⟩
  · intro v htr
    subst htr
    simp [checkWire, check, decode_response]
  · intro rid t htr hpos
    subst htr
    simp [checkWire, check, decode_response, VerifyError.toError_eq,
      ErrorKind.is_code_mismatch, hpos]
  · intro rid t htr hzero
    subst htr
    simp [checkWire, check, decode_response, VerifyError.toError_eq,
      ErrorKind.is_code_mismatch, hzero]
  · intro rid c t htr hc
    subst htr
    simp [checkWire, check, decode_response, VerifyError.toError_eq,
      ErrorKind.is_code_mismatch, hc]
  · intro resp htr hs
    subst htr
    simp [checkWire, check, decode_response, hs, Error.ofStatus, ErrorKind.is_code_mismatch]
  · intro m htr
    subst htr
    simp [checkWire, check, decode_response, Error.new_verify, ErrorKind.is_code_mismatch]
  · intro e htr
    subst htr
    simp [checkWire]

/-- C1 witness: the retry clause evaluated on a concrete handle with two
attempts remaining and a code-mismatch reply. -/
theorem C1_check_transitions_witness :
    checkWire ⟨⟨"key"⟩, ⟨"sec"⟩, ⟨"req-1"⟩, 2⟩
        (.replied ⟨200, .errorBody none .CodeMismatch "wrong code"⟩) =
      .ok (.Mismatch ⟨⟨"key"⟩, ⟨"sec"⟩, ⟨"req-1"⟩, 1⟩) :=
  (C1_check_transitions ⟨⟨"key"⟩, ⟨"sec"⟩, ⟨"req-1"⟩, 2⟩
    (.replied ⟨200, .errorBody none .CodeMismatch "wrong code"⟩)).2.1
    none "wrong code" rfl (by decide)

/-- C10: equality of PendingVerify handles is by request id string alone,
whatever the counters, keys and secrets are, and equal handles feed the
same data to any hasher, so they hash identically. -/
theorem C10_eq_and_hash_by_request_id :
    ∀ a b : PendingVerify,
      (PendingVerify.beq a b = true ↔ a.request_id = b.request_id) ∧
      (PendingVerify.beq a b = true → ∀ hasher : String → Nat,
        hasher (PendingVerify.hashData a) = hasher (PendingVerify.hashData b)) := by
  intro a b
  have hval : PendingVerify.beq a b = true ↔ a.request_id.val = b.request_id.val := by
    simp [PendingVerify.beq]
  constructor
  · rw [hval]
    cases a.request_id
    cases b.request_id
    simp
  · intro he hasher
    have : a.request_id.val = b.request_id.val := hval.mp he
    simp [PendingVerify.hashData, this]

/-- C10 witness: two handles differing in keys, secrets and counters but
sharing the request id compare equal and hash-feed the same data. -/
theorem C10_eq_and_hash_by_request_id_witness :
    PendingVerify.beq ⟨⟨"k1"⟩, ⟨"s1"⟩, ⟨"rid"⟩, 3⟩ ⟨⟨"k2"⟩, ⟨"s2"⟩, ⟨"rid"⟩, 0⟩ = true ∧
    String.length (PendingVerify.hashData ⟨⟨"k1"⟩, ⟨"s1"⟩, ⟨"rid"⟩, 3⟩) =
      String.length (PendingVerify.hashData ⟨⟨"k2"⟩, ⟨"s2"⟩, ⟨"rid"⟩, 0⟩) := by
  have h := C10_eq_and_hash_by_request_id ⟨⟨"k1"⟩, ⟨"s1"⟩, ⟨"rid"⟩, 3⟩ ⟨⟨"k2"⟩, ⟨"s2"⟩, ⟨"rid"⟩, 0⟩
  exact ⟨h.1.mpr rfl, h.2 (h.1.mpr rfl) String.length⟩

/-- C9: the diagnostic rendering of credentials and signatures does not
depend on the secret material: two Auth values differing only in the API
secret or the JWT private key render identically, and likewise two
Signature values differing only in the signing secret. -/
theorem C9_debug_hides_secrets :
    (∀ a1 a2 : Auth, a1.api_key.map Prod.fst = a2.api_key.map Prod.fst →
      a1.jwt.map Prod.fst = a2.jwt.map Prod.fst → debugAuth a1 = debugAuth a2) ∧
    (∀ g1 g2 : Signature, g1.method = g2.method → debugSignature g1 = debugSignature g2) ∧
    (∀ s1 s2 : ApiSecret, debugApiSecret s1 = debugApiSecret s2) := by
  refine ⟨?_, ?_, ?_⟩
  · rintro ⟨ak1, j1⟩ ⟨ak2, j2⟩ hk hj
    rcases ak1 with _ | ⟨k1, s1⟩ <;> rcases ak2 with _ | ⟨k2, s2⟩ <;>
      rcases j1 with _ | ⟨i1, p1⟩ <;> rcases j2 with _ | ⟨i2, p2⟩ <;>
      simp_all [debugAuth, debugApiSecret]
  · rintro ⟨sec1, m1⟩ ⟨sec2, m2⟩ hm
    simp_all [debugSignature]
  · intro s1 s2
    rfl

/-- C9 witness: two concrete credential sets differing only in secrets
render identically. -/
theorem C9_debug_hides_secrets_witness :
    debugAuth ⟨some (⟨"key"⟩, ⟨"hunter2"⟩), some ("app", "pk-one")⟩ =
      debugAuth ⟨some (⟨"key"⟩, ⟨"hunter3"⟩), some ("app", "pk-two")⟩ ∧
    debugSignature ⟨"topsecret", .Sha1Hmac⟩ = debugSignature ⟨"other", .Sha1Hmac⟩ :=
  ⟨C9_debug_hides_secrets.1 ⟨some (⟨"key"⟩, ⟨"hunter2"⟩), some ("app", "pk-one")⟩
      ⟨some (⟨"key"⟩, ⟨"hunter3"⟩), some ("app", "pk-two")⟩ rfl rfl,
    C9_debug_hides_secrets.2.1 ⟨"topsecret", .Sha1Hmac⟩ ⟨"other", .Sha1Hmac⟩ rfl⟩

/-- C5: the wire requests the code actually builds. Submitting a verify
request does POST a form-urlencoded body, but to the doubled path
/verify/verify/json (standard) and /verify/verify/psd2/json (PSD2), not to
/verify/json and /verify/psd2/json as the specification states, because
encode_request in src/verify.rs prepends a verify segment to PATH values
that already start with it; and the search encoder reached by the
signature of the call in src/verify/search.rs places the parameters in the
request body of the GET, not in the URL query string. -/
theorem C5_wire_request_divergence :
    (∀ v : Verify, v.variant = .Normal →
      (sendRequest v).uri = "https://api.nexmo.com/verify/verify/json") ∧
    (∀ v : Verify, v.variant = .Psd2 →
      (sendRequest v).uri = "https://api.nexmo.com/verify/verify/psd2/json") ∧
    (∀ v : Verify, (sendRequest v).method = .POST ∧
      (sendRequest v).content_type = "application/x-www-form-urlencoded" ∧
      (sendRequest v).body = v.encoded_body) ∧
    ((encode_request .GET "/verify/search" "api_key=k").uri =
      "https://api.nexmo.com/verify/verify/search/json") ∧
    ((encode_request .GET "/verify/search" "api_key=k").body = "api_key=k") ∧
    ("https://api.nexmo.com/verify/verify/json" ≠ VONAGE_URL_BASE ++ "/verify/json") := by
  refine ⟨?_, ?_, ?_, by decide, by decide, by decide⟩
  · intro v hv
    simp [sendRequest, encode_request, hv, Variant.PATH, VONAGE_URL_BASE]
  · intro v hv
    simp [sendRequest, encode_request, hv, Variant.PATH, VONAGE_URL_BASE]
  · intro v
    exact ⟨rfl, rfl, rfl⟩

/-- C5 witness: the divergent submit URI evaluated on a concrete builder. -/
theorem C5_wire_request_divergence_witness :
    (sendRequest ⟨⟨"k"⟩, ⟨"s"⟩, .Normal, "number=447700900000"⟩).uri =
      "https://api.nexmo.com/verify/verify/json" :=
  C5_wire_request_divergence.1 ⟨⟨"k"⟩, ⟨"s"⟩, .Normal, "number=447700900000"⟩ rfl

/-- C7: sign reproduces every fixed reference vector of the specification,
under the default plain-hash method for the MD5 vectors. -/
theorem C7_signature_reference_vectors :
    SignatureMethod.default = .Md5Hash ∧
    sign ⟨"secret", .Md5Hash⟩ [] = "5ebe2294ecd0e0f08eab7690d2a6ee69" ∧
    sign ⟨"secret", .Md5Hash⟩ [("from", "VONAGE")] = "129d3e7ca8b1acf36cb5ccb92dfec55c" ∧
    sign ⟨"secret", .Sha1Hmac⟩ [] = "25af6174a0fcecc4d346680a72b7ce644b9a88e8" ∧
    sign ⟨"secret", .Sha256Hmac⟩ [] =
      "f9e66e179b6747ae54108f82f8ade8b3c25d76fd30afde6c395822c530196169" ∧
    sign ⟨"secret", .Sha512Hmac⟩ [] =
      "b0e9650c5faf9cd8ae02276671545424104589b3656731ec193b25d01b07561c27637c2d4d68389d6cf5007a8632c26ec89ba80a01c77a6cdd389ec28db43901" :=
  ⟨rfl, by decide, by decide, by decide, by decide, by decide⟩

-- Association-list lookup lemmas used for the claim-set transformation ------

theorem lookup_cons_self (k : String) (v : Json) (rest : List (String × Json)) :
    ((k, v) :: rest).lookup k = some v := by
  simp [List.lookup]

theorem lookup_cons_ne (k k0 : String) (v0 : Json) (rest : List (String × Json))
    (h : k ≠ k0) : ((k0, v0) :: rest).lookup k = rest.lookup k := by
  simp [List.lookup, beq_eq_false_iff_ne.mpr h]

theorem lookup_mapInsert_self (k : String) (v : Json) :
    ∀ m : List (String × Json), (mapInsert k v m).lookup k = some v := by
  intro m
  induction m with
  | nil => exact lookup_cons_self k v []
  | cons kv rest ih =>
    obtain ⟨k0, v0⟩ := kv
    by_cases hk : k0 = k
    · rw [mapInsert, if_pos hk]
      exact lookup_cons_self k v rest
    · rw [mapInsert, if_neg hk, lookup_cons_ne k k0 v0 _ (Ne.symm hk)]
      exact ih

theorem lookup_mapInsert_ne (k : String) (v : Json) (k2 : String) (hne : k2 ≠ k) :
    ∀ m : List (String × Json), (mapInsert k v m).lookup k2 = m.lookup k2 := by
  intro m
  induction m with
  | nil => exact lookup_cons_ne k2 k v [] hne
  | cons kv rest ih =>
    obtain ⟨k0, v0⟩ := kv
    by_cases hk : k0 = k
    · rw [mapInsert, if_pos hk, hk, lookup_cons_ne k2 k v rest hne,
        lookup_cons_ne k2 k v0 rest hne]
    · rw [mapInsert, if_neg hk]
      by_cases hk2 : k2 = k0
      · subst hk2
        rw [lookup_cons_self, lookup_cons_self]
      · rw [lookup_cons_ne k2 k0 v0 _ hk2, lookup_cons_ne k2 k0 v0 rest hk2]
        exact ih

theorem lookup_append_some (k : String) (w : Json) (l1 l2 : List (String × Json))
    (h : l1.lookup k = some w) : (l1 ++ l2).lookup k = some w := by
  induction l1 with
  | nil => simp [List.lookup] at h
  | cons kv rest ih =>
    obtain ⟨k0, v0⟩ := kv
    by_cases hk : k = k0
    · subst hk
      rw [lookup_cons_self] at h
      rw [List.cons_append, lookup_cons_self]
      exact h
    · rw [lookup_cons_ne k k0 v0 rest hk] at h
      rw [List.cons_append, lookup_cons_ne k k0 v0 _ hk]
      exact ih h

theorem lookup_append_none (k : String) (l1 l2 : List (String × Json))
    (h : l1.lookup k = none) : (l1 ++ l2).lookup k = l2.lookup k := by
  induction l1 with
  | nil => simp
  | cons kv rest ih =>
    obtain ⟨k0, v0⟩ := kv
    by_cases hk : k = k0
    · subst hk
      rw [lookup_cons_self] at h
      exact absurd h (by simp)
    · rw [lookup_cons_ne k k0 v0 rest hk] at h
      rw [List.cons_append, lookup_cons_ne k k0 v0 _ hk]
      exact ih h

theorem lookup_entryOrInsert_self (k : String) (v : Json) (m : List (String × Json)) :
    (entryOrInsert k v m).lookup k = some ((m.lookup k).getD v) := by
  unfold entryOrInsert
  cases hm : m.lookup k with
  | some w => simp [hm]
  | none => simp [hm, lookup_append_none k m [(k, v)] hm, List.lookup]

theorem lookup_entryOrInsert_ne (k : String) (v : Json) (k2 : String) (hne : k2 ≠ k)
    (m : List (String × Json)) : (entryOrInsert k v m).lookup k2 = m.lookup k2 := by
  unfold entryOrInsert
  cases hm : m.lookup k with
  | some w => rfl
  | none =>
    cases hm2 : m.lookup k2 with
    | some w2 => rw [lookup_append_some k2 w2 m [(k, v)] hm2]
    | none =>
      rw [lookup_append_none k2 m [(k, v)] hm2, lookup_cons_ne k2 k v [] hne]
      rfl

/-- C8: generate_jwt fails with an authentication error whenever JWT
signing material was never supplied; with material present, the signed
claim set is the caller-supplied set with application_id always overwritten
to the configured identity, iat bound to the current epoch seconds only
when the caller supplied no iat, jti bound to the fresh unique identifier
only when the caller supplied no jti, and every other claim unchanged. -/
theorem C8_generate_jwt_claims :
    (∀ (a : Auth) (claims : List (String × Json)) (now_ts : Int) (fresh_jti : String),
      a.jwt = none → ∃ e : Error,
        generate_jwt a claims now_ts fresh_jti = .error e ∧ e.kind = .auth) ∧
    (∀ (a : Auth) (claims : List (String × Json)) (now_ts : Int) (fresh_jti : String)
        (app_id private_key : String), a.jwt = some (app_id, private_key) →
      ∃ out : List (String × Json),
        generate_jwt a claims now_ts fresh_jti = .ok out ∧
        out.lookup "application_id" = some (.jstr app_id) ∧
        out.lookup "iat" = some ((claims.lookup "iat").getD (.jint now_ts)) ∧
        out.lookup "jti" = some ((claims.lookup "jti").getD (.jstr fresh_jti)) ∧
        (∀ k : String, k ≠ "application_id" → k ≠ "iat" → k ≠ "jti" →
          out.lookup k = claims.lookup k)) := by
  constructor
  · intro a claims now_ts fresh_jti hj
    exact ⟨Error.new_auth "product requires an application ID and private key to generate JWTs",
      by simp [generate_jwt, hj], rfl⟩
  · intro a claims now_ts fresh_jti app_id private_key hj
    refine ⟨entryOrInsert "jti" (.jstr fresh_jti) (entryOrInsert "iat" (.jint now_ts)
      (mapInsert "application_id" (.jstr app_id) claims)), by simp [generate_jwt, hj],
      ?_, ?_, ?_, ?_⟩
    · have h1 : (mapInsert "application_id" (.jstr app_id) claims).lookup "application_id"
          = some (.jstr app_id) := lookup_mapInsert_self _ _ _
      have h2 := lookup_entryOrInsert_ne "iat" (.jint now_ts) "application_id" (by decide)
        (mapInsert "application_id" (.jstr app_id) claims)
      have h3 := lookup_entryOrInsert_ne "jti" (.jstr fresh_jti) "application_id" (by decide)
        (entryOrInsert "iat" (.jint now_ts) (mapInsert "application_id" (.jstr app_id) claims))
      rw [h3, h2, h1]
    · have h1 : (mapInsert "application_id" (.jstr app_id) claims).lookup "iat"
          = claims.lookup "iat" := lookup_mapInsert_ne _ _ _ (by decide) _
      have h2 := lookup_entryOrInsert_self "iat" (.jint now_ts)
        (mapInsert "application_id" (.jstr app_id) claims)
      have h3 := lookup_entryOrInsert_ne "jti" (.jstr fresh_jti) "iat" (by decide)
        (entryOrInsert "iat" (.jint now_ts) (mapInsert "application_id" (.jstr app_id) claims))
      rw [h3, h2, h1]
    · have h1 : (mapInsert "application_id" (.jstr app_id) claims).lookup "jti"
          = claims.lookup "jti" := lookup_mapInsert_ne _ _ _ (by decide) _
      have h2 : (entryOrInsert "iat" (.jint now_ts)
            (mapInsert "application_id" (.jstr app_id) claims)).lookup "jti"
          = claims.lookup "jti" := by
        rw [lookup_entryOrInsert_ne "iat" (.jint now_ts) "jti" (by decide) _, h1]
      rw [lookup_entryOrInsert_self "jti" (.jstr fresh_jti) _, h2]
    · intro k hk1 hk2 hk3
      rw [lookup_entryOrInsert_ne "jti" (.jstr fresh_jti) k hk3 _,
        lookup_entryOrInsert_ne "iat" (.jint now_ts) k hk2 _,
        lookup_mapInsert_ne _ _ _ hk1 _]

/-- C8 witness: the claim-set transformation evaluated on a concrete Auth
with JWT material and a claim set that already carries an iat. -/
theorem C8_generate_jwt_claims_witness :
    ∃ out : List (String × Json),
      generate_jwt ⟨none, some ("app-1", "pk")⟩ [("iat", .jint 5)] 99 "uuid-1" = .ok out ∧
      out.lookup "application_id" = some (.jstr "app-1") ∧
      out.lookup "iat" = some ((([("iat", Json.jint 5)]).lookup "iat").getD (.jint 99)) ∧
      out.lookup "jti" = some ((([("iat", Json.jint 5)]).lookup "jti").getD (.jstr "uuid-1")) ∧
      (∀ k : String, k ≠ "application_id" → k ≠ "iat" → k ≠ "jti" →
        out.lookup k = ([("iat", Json.jint 5)]).lookup k) :=
  C8_generate_jwt_claims.2 ⟨none, some ("app-1", "pk")⟩ [("iat", .jint 5)] 99 "uuid-1"
    "app-1" "pk" rfl

/-- C4: search returns one optional slot per parsed record in response
order, which matches the input handles one for one in input order whenever
the provider answers with one record per requested id; an empty input list
yields an empty sequence without any network request; and a does-not-exist
provider error for record k yields None in slot k while every other slot
stays populated instead of failing the batch. -/
theorem C4_search_contract :
    (∀ transport : SearchRequestBody → Transport SearchBody,
      search [] transport = (none, .ok [])) ∧
    (∀ (h0 : PendingVerify) (hs : List PendingVerify)
        (transport : SearchRequestBody → Transport SearchBody),
      (search (h0 :: hs) transport).1 =
        some ⟨h0.api_key, h0.api_secret, (h0 :: hs).map (fun h => h.request_id)⟩) ∧
    (∀ (h0 : PendingVerify) (hs : List PendingVerify) (rs : List SearchRecord),
      rs.length = (h0 :: hs).length →
      ∃ l : List (Option VerifyInfo),
        (search (h0 :: hs) (fun _ => .replied ⟨200, .records rs⟩)).2 = .ok l ∧
        l.length = (h0 :: hs).length ∧
        (∀ k : Nat, l[k]? = rs[k]?.map recordSlot) ∧
        (∀ k : Nat, l[k]? = some none ↔ rs[k]? = some .errorDoesNotExist)) := by
  refine ⟨fun _ => rfl, fun h0 hs transport => ?_, fun h0 hs rs hlen => ?_⟩
  · simp only [search]
    cases transport ⟨h0.api_key, h0.api_secret, (h0 :: hs).map (fun h => h.request_id)⟩ with
    | failed e => rfl
    | replied resp =>
      obtain ⟨st, bd⟩ := resp
      dsimp only
      by_cases hs2 : st = 200
      · subst hs2
        cases bd <;> rfl
      · rw [if_neg hs2]
  · refine ⟨rs.map recordSlot, by simp [search], by simp [hlen.symm], ?_, ?_⟩
    · intro k
      simp [List.getElem?_map]
    · intro k
      rw [List.getElem?_map]
      cases hk : rs[k]? with
      | none => simp
      | some r => cases r <;> simp [recordSlot]

/-- C4 witness: one existing and one missing record for two handles. -/
theorem C4_search_contract_witness :
    ∃ l : List (Option VerifyInfo),
      (search [⟨⟨"k"⟩, ⟨"s"⟩, ⟨"r1"⟩, 3⟩, ⟨⟨"k"⟩, ⟨"s"⟩, ⟨"r2"⟩, 3⟩]
          (fun _ => .replied ⟨200, .records [.errorDoesNotExist, .errorDoesNotExist]⟩)).2 =
        .ok l ∧
      l.length = 2 ∧
      (∀ k : Nat, l[k]? =
        ([SearchRecord.errorDoesNotExist, .errorDoesNotExist][k]?).map recordSlot) ∧
      (∀ k : Nat, l[k]? = some none ↔
        [SearchRecord.errorDoesNotExist, .errorDoesNotExist][k]? =
          some .errorDoesNotExist) :=
  C4_search_contract.2.2 ⟨⟨"k"⟩, ⟨"s"⟩, ⟨"r1"⟩, 3⟩ [⟨⟨"k"⟩, ⟨"s"⟩, ⟨"r2"⟩, 3⟩]
    [.errorDoesNotExist, .errorDoesNotExist] (by decide)

-- Attempt-budget lemmas ------------------------------------------------------

theorem send_attempts (v : Verify) (tr : Transport (ParsedBody SendResponseBody))
    (h : PendingVerify) (hok : send v tr = .ok h) :
    h.attempts_remaining = MAX_CHECK_ATTEMPTS := by
  cases tr with
  | failed e => simp [send] at hok
  | replied resp =>
    simp only [send] at hok
    cases hd : decode_response resp with
    | error e => rw [hd] at hok; simp at hok
    | ok rb =>
      rw [hd] at hok
      simp only [Except.ok.injEq] at hok
      rw [← hok]

theorem check_mismatch_attempts (h : PendingVerify) (dec : Except Error Verified)
    (h2 : PendingVerify) (hok : check h dec = .ok (.Mismatch h2)) :
    h2.attempts_remaining + 1 = h.attempts_remaining := by
  cases dec with
  | ok v => simp [check] at hok
  | error e =>
    by_cases hc : e.kind.is_code_mismatch = true ∧ 0 < h.attempts_remaining
    · rw [check, if_pos hc] at hok
      simp only [Except.ok.injEq, Code.Mismatch.injEq] at hok
      rw [← hok]
      have := hc.2
      simp only
      omega
    · rw [check, if_neg hc] at hok
      simp at hok

theorem checkWire_mismatch_attempts (h : PendingVerify) (tr : Transport (ParsedBody Verified))
    (h2 : PendingVerify) (hok : checkWire h tr = .ok (.Mismatch h2)) :
    h2.attempts_remaining + 1 = h.attempts_remaining := by
  cases tr with
  | failed e => simp [checkWire] at hok
  | replied resp =>
    exact check_mismatch_attempts h (decode_response resp) h2 (by simpa [checkWire] using hok)

theorem control_command_fst (h : PendingVerify) (cmd : ControlCommand)
    (tr : Transport (ParsedBody Unit)) : (control_command h cmd tr).1 = h := by
  cases tr <;> rfl

/-- C2 counterexample: a handle reachable from a successful send through
three code-mismatch check calls has attempts_remaining = 0, outside the
set {1, 2, 3} asserted by the claim, yet it is still checkable: it was
handed back inside Code::Mismatch and a further check on it succeeds when
the provider reports a match. -/
theorem C2_attempts_budget_counterexample :
    ReachableFromSend ⟨⟨"k"⟩, ⟨"s"⟩, ⟨"rid"⟩, 0⟩ ∧
    PendingVerify.attempts_remaining ⟨⟨"k"⟩, ⟨"s"⟩, ⟨"rid"⟩, 0⟩ = 0 ∧
    ¬(PendingVerify.attempts_remaining ⟨⟨"k"⟩, ⟨"s"⟩, ⟨"rid"⟩, 0⟩ = 1 ∨
      PendingVerify.attempts_remaining ⟨⟨"k"⟩, ⟨"s"⟩, ⟨"rid"⟩, 0⟩ = 2 ∨
      PendingVerify.attempts_remaining ⟨⟨"k"⟩, ⟨"s"⟩, ⟨"rid"⟩, 0⟩ = 3) ∧
    checkWire ⟨⟨"k"⟩, ⟨"s"⟩, ⟨"rid"⟩, 0⟩
        (.replied ⟨200, .success ⟨⟨"rid"⟩, "ev", "0.10000000", "EUR", none⟩⟩) =
      .ok (.Match ⟨⟨"rid"⟩, "ev", "0.10000000", "EUR", none⟩) := by
  refine ⟨?_, rfl, by decide, rfl⟩
  have h3 : ReachableFromSend ⟨⟨"k"⟩, ⟨"s"⟩, ⟨"rid"⟩, 3⟩ :=
    ReachableFromSend.send_ok ⟨⟨"k"⟩, ⟨"s"⟩, .Normal, "number=447700900000"⟩
      (.replied ⟨200, .success ⟨⟨"rid"⟩⟩⟩) ⟨⟨"k"⟩, ⟨"s"⟩, ⟨"rid"⟩, 3⟩ rfl
  have h2 : ReachableFromSend ⟨⟨"k"⟩, ⟨"s"⟩, ⟨"rid"⟩, 2⟩ :=
    ReachableFromSend.check_mismatch ⟨⟨"k"⟩, ⟨"s"⟩, ⟨"rid"⟩, 3⟩
      (.replied ⟨200, .errorBody none .CodeMismatch "wrong"⟩)
      ⟨⟨"k"⟩, ⟨"s"⟩, ⟨"rid"⟩, 2⟩ h3 rfl
  have h1 : ReachableFromSend ⟨⟨"k"⟩, ⟨"s"⟩, ⟨"rid"⟩, 1⟩ :=
    ReachableFromSend.check_mismatch ⟨⟨"k"⟩, ⟨"s"⟩, ⟨"rid"⟩, 2⟩
      (.replied ⟨200, .errorBody none .CodeMismatch "wrong"⟩)
      ⟨⟨"k"⟩, ⟨"s"⟩, ⟨"rid"⟩, 1⟩ h2 rfl
  exact ReachableFromSend.check_mismatch ⟨⟨"k"⟩, ⟨"s"⟩, ⟨"rid"⟩, 1⟩
    (.replied ⟨200, .errorBody none .CodeMismatch "wrong"⟩)
    ⟨⟨"k"⟩, ⟨"s"⟩, ⟨"rid"⟩, 0⟩ h1 rfl

/-- C2 (amended): every handle reachable from a successful send has its
counter bounded by the initial MAX_CHECK_ATTEMPTS = 3, so it lies in
{0, 1, 2, 3}; the counter never increases: a mismatch retry decrements it
by exactly one under a positive-counter guard, so it never goes negative,
and the control commands leave it untouched. -/
theorem C2_attempts_budget_amended :
    (∀ h : PendingVerify, ReachableFromSend h →
      h.attempts_remaining ≤ MAX_CHECK_ATTEMPTS) ∧
    (∀ (h : PendingVerify) (tr : Transport (ParsedBody Verified)) (h2 : PendingVerify),
      checkWire h tr = .ok (.Mismatch h2) →
      h2.attempts_remaining + 1 = h.attempts_remaining ∧ 0 < h.attempts_remaining) ∧
    (∀ (h : PendingVerify) (cmd : ControlCommand) (tr : Transport (ParsedBody Unit)),
      (control_command h cmd tr).1.attempts_remaining = h.attempts_remaining) := by
  refine ⟨?_, ?_, ?_⟩
  · intro h hr
    induction hr with
    | send_ok v tr h hok => rw [send_attempts v tr h hok]
    | check_mismatch h tr h2 hr hok ih =>
      have := checkWire_mismatch_attempts h tr h2 hok
      omega
    | control h cmd tr hr ih =>
      rw [control_command_fst]
      exact ih
  · intro h tr h2 hok
    have := checkWire_mismatch_attempts h tr h2 hok
    exact ⟨this, by omega⟩
  · intro h cmd tr
    rw [control_command_fst]

-- Order lemmas for the canonical payload ------------------------------------

theorem charToNat_inj {a b : Char} (h : a.toNat = b.toNat) : a = b :=
  Char.eq_of_val_eq (UInt32.eq_of_toBitVec_eq (BitVec.eq_of_toNat_eq h))

theorem strData_inj {a b : String} (h : a.data = b.data) : a = b := by
  cases a; cases b; simp_all

theorem charsLtB_trans : ∀ {xs ys zs : List Char},
    charsLtB xs ys = true → charsLtB ys zs = true → charsLtB xs zs = true := by
  intro xs
  induction xs with
  | nil =>
    intro ys zs h1 h2
    cases ys with
    | nil => simp [charsLtB] at h1
    | cons b bs =>
      cases zs with
      | nil => simp [charsLtB] at h2
      | cons c cs => simp [charsLtB]
  | cons a as ih =>
    intro ys zs h1 h2
    cases ys with
    | nil => simp [charsLtB] at h1
    | cons b bs =>
      cases zs with
      | nil => simp [charsLtB] at h2
      | cons c cs =>
        simp only [charsLtB] at h1 h2 ⊢
        rcases Nat.lt_trichotomy a.toNat b.toNat with hab | hab | hab
        · rcases Nat.lt_trichotomy b.toNat c.toNat with hbc | hbc | hbc
          · rw [if_pos (by omega)]
          · rw [if_pos (by omega)]
          · rw [if_neg (by omega), if_pos hbc] at h2
            exact absurd h2 (by simp)
        · rw [if_neg (by omega), if_neg (by omega)] at h1
          rcases Nat.lt_trichotomy b.toNat c.toNat with hbc | hbc | hbc
          · rw [if_pos (by omega)]
          · rw [if_neg (by omega), if_neg (by omega)] at h2
            rw [if_neg (by omega), if_neg (by omega)]
            exact ih h1 h2
          · rw [if_neg (by omega), if_pos hbc] at h2
            exact absurd h2 (by simp)
        · rw [if_neg (by omega), if_pos hab] at h1
          exact absurd h1 (by simp)

theorem charsLtB_asymm : ∀ {xs ys : List Char},
    charsLtB xs ys = true → charsLtB ys xs = true → False := by
  intro xs
  induction xs with
  | nil =>
    intro ys h1 h2
    cases ys with
    | nil => simp [charsLtB] at h1
    | cons b bs => simp [charsLtB] at h2
  | cons a as ih =>
    intro ys h1 h2
    cases ys with
    | nil => simp [charsLtB] at h1
    | cons b bs =>
      simp only [charsLtB] at h1 h2
      rcases Nat.lt_trichotomy a.toNat b.toNat with hab | hab | hab
      · rw [if_neg (by omega), if_pos (by omega)] at h2
        exact absurd h2 (by simp)
      · rw [if_neg (by omega), if_neg (by omega)] at h1
        rw [if_neg (by omega), if_neg (by omega)] at h2
        exact ih h1 h2
      · rw [if_neg (by omega), if_pos (by omega)] at h1
        exact absurd h1 (by simp)

theorem charsLtB_conn : ∀ {xs ys : List Char},
    charsLtB xs ys = false → charsLtB ys xs = false → xs = ys := by
  intro xs
  induction xs with
  | nil =>
    intro ys h1 h2
    cases ys with
    | nil => rfl
    | cons b bs => simp [charsLtB] at h1
  | cons a as ih =>
    intro ys h1 h2
    cases ys with
    | nil => simp [charsLtB] at h2
    | cons b bs =>
      simp only [charsLtB] at h1 h2
      rcases Nat.lt_trichotomy a.toNat b.toNat with hab | hab | hab
      · rw [if_pos hab] at h1
        exact absurd h1 (by simp)
      · rw [if_neg (by omega), if_neg (by omega)] at h1
        rw [if_neg (by omega), if_neg (by omega)] at h2
        rw [charToNat_inj hab, ih h1 h2]
      · rw [if_pos hab] at h2
        exact absurd h2 (by simp)

theorem strLtB_trans {a b c : String} (h1 : strLtB a b = true) (h2 : strLtB b c = true) :
    strLtB a c = true := charsLtB_trans h1 h2

theorem strLtB_asymm {a b : String} (h1 : strLtB a b = true) (h2 : strLtB b a = true) :
    False := charsLtB_asymm h1 h2

theorem strLtB_conn {a b : String} (h1 : strLtB a b = false) (h2 : strLtB b a = false) :
    a = b := strData_inj (charsLtB_conn h1 h2)

/-- The key order the sorted map is pairwise-sorted by. -/
def ltKey (a b : String × String) : Prop := strLtB a.1 b.1 = true

instance : IsAntisymm (String × String) ltKey :=
  ⟨fun _ _ h1 h2 => (strLtB_asymm h1 h2).elim⟩

theorem mem_btreeInsert {y kv : String × String} :
    ∀ {xs : List (String × String)}, y ∈ btreeInsert xs kv → y = kv ∨ y ∈ xs := by
  intro xs
  induction xs with
  | nil =>
    intro h
    simp only [btreeInsert, List.mem_singleton] at h
    exact Or.inl h
  | cons x xs ih =>
    intro h
    simp only [btreeInsert] at h
    by_cases h1 : strLtB kv.1 x.1 = true
    · rw [if_pos h1] at h
      rcases List.mem_cons.mp h with h | h
      · exact Or.inl h
      · exact Or.inr h
    · rw [if_neg h1] at h
      by_cases h2 : kv.1 = x.1
      · rw [if_pos h2] at h
        rcases List.mem_cons.mp h with h | h
        · exact Or.inl h
        · exact Or.inr (List.mem_cons_of_mem x h)
      · rw [if_neg h2] at h
        rcases List.mem_cons.mp h with h | h
        · exact Or.inr (h ▸ List.mem_cons_self x xs)
        · rcases ih h with h | h
          · exact Or.inl h
          · exact Or.inr (List.mem_cons_of_mem x h)

theorem btreeInsert_pairwise : ∀ {xs : List (String × String)} (kv : String × String),
    xs.Pairwise ltKey → kv.1 ∉ xs.map Prod.fst → (btreeInsert xs kv).Pairwise ltKey := by
  intro xs
  induction xs with
  | nil =>
    intro kv _ _
    simp [btreeInsert]
  | cons x xs ih =>
    intro kv hp hfresh
    obtain ⟨hx, hxs⟩ := List.pairwise_cons.mp hp
    have hne : kv.1 ≠ x.1 := fun e => hfresh (by simp [e])
    have hfresh2 : kv.1 ∉ xs.map Prod.fst := fun m => hfresh (by simp [m])
    simp only [btreeInsert]
    by_cases h1 : strLtB kv.1 x.1 = true
    · rw [if_pos h1]
      refine List.pairwise_cons.mpr ⟨?_, hp⟩
      intro y hy
      rcases List.mem_cons.mp hy with rfl | hy
      · exact h1
      · exact strLtB_trans h1 (hx y hy)
    · rw [if_neg h1, if_neg hne]
      have h1f : strLtB kv.1 x.1 = false := by
        cases hb : strLtB kv.1 x.1
        · rfl
        · exact absurd hb h1
      have hxkv : strLtB x.1 kv.1 = true := by
        cases hb : strLtB x.1 kv.1
        · exact absurd (strLtB_conn h1f hb) hne
        · rfl
      refine List.pairwise_cons.mpr ⟨?_, ih kv hxs hfresh2⟩
      intro y hy
      rcases mem_btreeInsert hy with rfl | hy
      · exact hxkv
      · exact hx y hy

theorem btreeInsert_perm : ∀ (xs : List (String × String)) (kv : String × String),
    kv.1 ∉ xs.map Prod.fst → (btreeInsert xs kv).Perm (kv :: xs) := by
  intro xs
  induction xs with
  | nil => intro kv _; exact List.Perm.refl _
  | cons x xs ih =>
    intro kv hfresh
    have hne : kv.1 ≠ x.1 := fun e => hfresh (by simp [e])
    have hfresh2 : kv.1 ∉ xs.map Prod.fst := fun m => hfresh (by simp [m])
    simp only [btreeInsert]
    by_cases h1 : strLtB kv.1 x.1 = true
    · rw [if_pos h1]
    · rw [if_neg h1, if_neg hne]
      exact ((ih kv hfresh2).cons x).trans (List.Perm.swap kv x xs)

theorem foldl_btreeInsert_spec : ∀ (ps acc : List (String × String)),
    ((acc ++ ps).map Prod.fst).Nodup → acc.Pairwise ltKey →
    (ps.foldl btreeInsert acc).Perm (acc ++ ps) ∧
      (ps.foldl btreeInsert acc).Pairwise ltKey := by
  intro ps
  induction ps with
  | nil =>
    intro acc h hp
    refine ⟨by simp, by simp only [List.foldl_nil]; exact hp⟩
  | cons p ps ih =>
    intro acc hnodup hp
    have hmapeq : (acc ++ p :: ps).map Prod.fst
        = acc.map Prod.fst ++ p.1 :: ps.map Prod.fst := by simp
    have hfresh : p.1 ∉ acc.map Prod.fst := by
      rw [hmapeq] at hnodup
      obtain ⟨_, _, hdis⟩ := List.nodup_append.mp hnodup
      exact fun hmem => hdis hmem (List.mem_cons_self _ _)
    have hacc2 : (btreeInsert acc p).Pairwise ltKey := btreeInsert_pairwise p hp hfresh
    have hperm2 : (btreeInsert acc p).Perm (p :: acc) := btreeInsert_perm acc p hfresh
    have happ : (btreeInsert acc p ++ ps).Perm (acc ++ p :: ps) :=
      (hperm2.append_right ps).trans (by simpa using List.perm_middle.symm)
    have hnodup2 : ((btreeInsert acc p ++ ps).map Prod.fst).Nodup :=
      ((happ.map Prod.fst).nodup_iff).mpr hnodup
    obtain ⟨ihperm, ihpair⟩ := ih (btreeInsert acc p) hnodup2 hacc2
    refine ⟨?_, by simpa [List.foldl_cons] using ihpair⟩
    show (ps.foldl btreeInsert (btreeInsert acc p)).Perm (acc ++ p :: ps)
    exact ihperm.trans happ

theorem toSortedMap_spec (params : List (String × String))
    (h : (params.map Prod.fst).Nodup) :
    (toSortedMap params).Perm params ∧ (toSortedMap params).Pairwise ltKey := by
  have := foldl_btreeInsert_spec params [] (by simpa using h) List.Pairwise.nil
  simpa [toSortedMap] using this

theorem sortedMap_filter_sig (params : List (String × String))
    (h : (params.map Prod.fst).Nodup) :
    toSortedMap (params.filter (fun kv => kv.1 ≠ "sig")) =
      (toSortedMap params).filter (fun kv => kv.1 ≠ "sig") := by
  have hfnodup : (((params.filter (fun kv => kv.1 ≠ "sig")).map Prod.fst)).Nodup :=
    h.sublist ((params.filter_sublist).map Prod.fst)
  obtain ⟨hp1, hs1⟩ := toSortedMap_spec (params.filter (fun kv => kv.1 ≠ "sig")) hfnodup
  obtain ⟨hp2, hs2⟩ := toSortedMap_spec params h
  refine List.eq_of_perm_of_sorted ?_ hs1 (hs2.filter _)
  exact hp1.trans ((hp2.filter _).symm)

theorem to_payload_str_sig_filter (params : List (String × String))
    (h : (params.map Prod.fst).Nodup) :
    to_payload_str (params.filter (fun kv => kv.1 ≠ "sig")) = to_payload_str params := by
  unfold to_payload_str
  rw [sortedMap_filter_sig params h, List.filter_filter]
  simp

theorem sign_sig_filter (g : Signature) (params : List (String × String))
    (h : (params.map Prod.fst).Nodup) :
    sign g (params.filter (fun kv => kv.1 ≠ "sig")) = sign g params := by
  have hpay := to_payload_str_sig_filter params h
  obtain ⟨secret, method⟩ := g
  cases method <;> simp only [sign] <;> rw [hpay]

/-- C6: for every secret, method and map-like parameter set (distinct
keys), sign is a pure function of its inputs; removing a pre-existing sig
field before signing never changes the digest; and the canonical string
sign hashes is the key-ascending sorted concatenation of
ampersand-key-equals-value fragments whose values have their ampersand and
equals characters replaced by underscores (the sorted list is pinned down
as the unique key-sorted permutation of the sig-free parameter set). -/
theorem C6_sign_canonicalization (g : Signature) (params : List (String × String))
    (h : (params.map Prod.fst).Nodup) :
    sign g params = sign g params ∧
    sign g (params.filter (fun kv => kv.1 ≠ "sig")) = sign g params ∧
    (∃ l : List (String × String),
      l.Perm (params.filter (fun kv => kv.1 ≠ "sig")) ∧ l.Pairwise ltKey ∧
      to_payload_str params =
        l.foldl (fun acc kv => acc ++ "&" ++ kv.1 ++ "=" ++ escapeValue kv.2) "") := by
  refine ⟨rfl, sign_sig_filter g params h,
    ⟨(toSortedMap params).filter (fun kv => kv.1 ≠ "sig"), ?_, ?_, rfl⟩⟩
  · exact (toSortedMap_spec params h).1.filter _
  · exact (toSortedMap_spec params h).2.filter _

/-- C6 witness: sig-field removal invariance evaluated on a concrete
parameter set that carries a sig field and separator characters inside a
value. -/
theorem C6_sign_canonicalization_witness :
    sign ⟨"secret", .Md5Hash⟩
        ([("sig", "zzz"), ("b", "2"), ("a", "1&c=d")].filter (fun kv => kv.1 ≠ "sig")) =
      sign ⟨"secret", .Md5Hash⟩ [("sig", "zzz"), ("b", "2"), ("a", "1&c=d")] :=
  (C6_sign_canonicalization ⟨"secret", .Md5Hash⟩
    [("sig", "zzz"), ("b", "2"), ("a", "1&c=d")] (by decide)).2.1

/-- C2 witness: the amended bound evaluated on a freshly sent handle. -/
theorem C2_attempts_budget_amended_witness :
    PendingVerify.attempts_remaining ⟨⟨"k2"⟩, ⟨"s2"⟩, ⟨"r9"⟩, 3⟩ ≤ MAX_CHECK_ATTEMPTS :=
  C2_attempts_budget_amended.1 ⟨⟨"k2"⟩, ⟨"s2"⟩, ⟨"r9"⟩, 3⟩
    (ReachableFromSend.send_ok ⟨⟨"k2"⟩, ⟨"s2"⟩, .Normal, "number=447700900001"⟩
      (.replied ⟨200, .success ⟨⟨"r9"⟩⟩⟩) ⟨⟨"k2"⟩, ⟨"s2"⟩, ⟨"r9"⟩, 3⟩ rfl)

end Vonage
